import Mathlib

/-!
Verification development for the graph-viewer client.

The definitions below are a shallow embedding of the application code:
`FilterId`, `FILTER_COLORS`, `toggle`, `nodeColor` and the data adapter
inside `apply` come from `src/graph-viewer/src/App.tsx`; `fetchJson` and
`fetchIntersection`'s URL construction come from the API helper module.
The React state cell triple (graph, loading, error) is modelled as an
explicit `AppState` record, and the `apply` callback as the composition
of a start step (set loading, clear error) and a finish step dispatching
on the fetch outcome (`Except`), mirroring the try/catch/finally
structure of the source.
-/

namespace GraphViewer

/-- The filter identifiers: `type FilterId = 'public' | 'sink' | 'vuln'`. -/
inductive FilterId where
  | public
  | sink
  | vuln
deriving DecidableEq, Fintype, Repr

/-- The string form of a filter identifier, as sent over the wire. -/
def filterIdStr : FilterId → String
  | .public => "public"
  | .sink => "sink"
  | .vuln => "vuln"

/-- `FILTER_COLORS`: the fixed per-filter color map from App.tsx. -/
def FILTER_COLORS : FilterId → String
  | .public => "#22c55e"
  | .sink => "#3b82f6"
  | .vuln => "#ef4444"

/-- `type GraphNode = \x7b id: string; group: FilterId[] \x7d`. -/
structure GraphNode where
  id : String
  group : List FilterId
deriving DecidableEq, Repr

/-- `type GraphLink = \x7b source: string; target: string \x7d`. -/
structure GraphLink where
  source : String
  target : String
deriving DecidableEq, Repr

/-- The displayed graph state: `\x7b nodes: GraphNode[]; links: GraphLink[] \x7d`. -/
structure Graph where
  nodes : List GraphNode
  links : List GraphLink
deriving DecidableEq, Repr

/-- The empty graph `\x7b nodes: [], links: [] \x7d`. -/
def emptyGraph : Graph := { nodes := [], links := [] }

/-- `toggle` from App.tsx: copy the set, delete the id if present,
otherwise add it. -/
def toggle (id : FilterId) (prev : Finset FilterId) : Finset FilterId :=
  if id ∈ prev then prev.erase id else insert id prev

/-- `nodeColor` from App.tsx: neutral for an empty group, the filter's
fixed color for a singleton group, the multi color otherwise. -/
def nodeColor (node : GraphNode) : String :=
  match node.group with
  | [] => "#94a3b8"
  | [f] => FILTER_COLORS f
  | _ => "#a855f7"

/-- The wire response type `IntersectionResponse` from the API module.
`nodes` and `edges` are `Option`s to model the runtime possibility of a
null/undefined field, which App.tsx guards with `?? []`. -/
structure IntersectionResponse where
  options : List String
  nodes : Option (List String)
  edges : Option (List (String × String))
deriving DecidableEq, Repr

/-- An HTTP response as seen by `fetchJson`: its ok flag, its body as
text, and its body parsed as JSON. -/
structure HttpResponse (T : Type) where
  ok : Bool
  bodyText : String
  bodyJson : T

/-- `fetchJson` from the API module: on a non-ok status throw an error
carrying the response body text, otherwise return the parsed JSON. -/
def fetchJson {T : Type} (r : HttpResponse T) : Except String T :=
  if r.ok then Except.ok r.bodyJson else Except.error r.bodyText

/-- A character that `encodeURIComponent` leaves unescaped:
alphanumeric or one of `- _ . ! ~ * ( )` or the apostrophe (code 39). -/
def isUnescapedUriChar (c : Char) : Bool :=
  c.isAlphanum || c = '-' || c = '_' || c = '.' || c = '!' || c = '~' ||
    c = '*' || c.toNat == 39 || c = '(' || c = ')'

/-- Uppercase hexadecimal digit for a value below 16. -/
def hexDigit (n : Nat) : Char :=
  if n < 10 then Char.ofNat (48 + n) else Char.ofNat (55 + n)

/-- The UTF-8 byte values of the code point `n`. -/
def utf8Bytes (n : Nat) : List Nat :=
  if n < 128 then [n]
  else if n < 2048 then [192 + n / 64, 128 + n % 64]
  else if n < 65536 then [224 + n / 4096, 128 + (n / 64) % 64, 128 + n % 64]
  else [240 + n / 262144, 128 + (n / 4096) % 64, 128 + (n / 64) % 64, 128 + n % 64]

/-- Percent-encode one character as `%XX` per UTF-8 byte. -/
def percentEncodeChar (c : Char) : String :=
  String.mk ((utf8Bytes c.toNat).foldr
    (fun b acc => '%' :: hexDigit (b / 16) :: hexDigit (b % 16) :: acc) [])

/-- JavaScript's `encodeURIComponent`: unescaped characters pass
through, all others are percent-encoded. -/
def encodeURIComponent (s : String) : String :=
  String.join (s.toList.map
    (fun c => if isUnescapedUriChar c then String.singleton c else percentEncodeChar c))

/-- `API_BASE` from the API module. -/
def API_BASE : String := "/api"

/-- The URL built by `fetchIntersection`: the intersection path, plus a
query string of one `options=` parameter per entry when the list is
non-empty, nothing when it is empty. -/
def intersectionUrl (options : List String) : String :=
  API_BASE ++ "/intersection" ++
    (if options.length ≠ 0 then
      "?" ++ String.intercalate "&" (options.map (fun o => "options=" ++ encodeURIComponent o))
    else "")

/-- The React state cells owned by `App` that `apply` touches. -/
structure AppState where
  graph : Graph
  loading : Bool
  error : Option String
deriving DecidableEq, Repr

/-- The adapter step inside `apply`: each node id becomes a `GraphNode`
carrying the snapshotted options list as its group, each edge pair
becomes a `GraphLink`; a missing field defaults to the empty list. -/
def adapt (options : List FilterId) (r : IntersectionResponse) : Graph :=
  { nodes := (r.nodes.getD []).map (fun id => { id := id, group := options }),
    links := (r.edges.getD []).map (fun p => { source := p.1, target := p.2 }) }

/-- The synchronous prefix of `apply`: `setLoading(true); setError(null)`. -/
def applyStart (st : AppState) : AppState :=
  { st with loading := true, error := none }

/-- The continuation of `apply` once the fetch settles: on success the
graph is replaced by the adapter output, on failure the error message is
recorded and the graph reset to empty; the `finally` clause clears the
loading flag in both cases. -/
def applyFinish (st : AppState) (options : List FilterId)
    (resp : Except String IntersectionResponse) : AppState :=
  match resp with
  | .ok r => { st with graph := adapt options r, loading := false }
  | .error msg => { st with error := some msg, graph := emptyGraph, loading := false }

/-- One full `apply` cycle against a concrete HTTP response. -/
def applyWithResponse (st : AppState) (selected : List FilterId)
    (r : HttpResponse IntersectionResponse) : AppState :=
  applyFinish (applyStart st) selected (fetchJson r)

/-- One full `apply` cycle against an API modelled as a function from
the request's options strings to the HTTP response. -/
def runApply (api : List String → HttpResponse IntersectionResponse)
    (selected : List FilterId) (st : AppState) : AppState :=
  applyWithResponse st selected (api (selected.map filterIdStr))

/-- The three filter identifier strings survive `encodeURIComponent`
unchanged, being all-lowercase-alphabetic. -/
lemma encode_filterIdStr (f : FilterId) :
    encodeURIComponent (filterIdStr f) = filterIdStr f := by
  cases f <;> decide

/-- Folding `toggle` over a duplicate-free list of elements all outside
`s` adds exactly that list's elements to `s`. -/
lemma toggle_foldl_disjoint : ∀ (l : List FilterId) (s : Finset FilterId),
    l.Nodup → (∀ f ∈ l, f ∉ s) →
    l.foldl (fun acc f => toggle f acc) s = s ∪ l.toFinset := by
  intro l
  induction l with
  | nil => intro s _ _; simp
  | cons a t ih =>
    intro s hnd hdisj
    have ha : a ∉ s := hdisj a (List.mem_cons_self a t)
    have hstep : toggle a s = insert a s := by simp [toggle, ha]
    rw [List.foldl_cons, hstep, ih (insert a s) hnd.of_cons]
    · ext x
      simp only [Finset.mem_union, Finset.mem_insert, List.toFinset_cons, List.mem_toFinset]
      tauto
    · intro f hf
      simp only [Finset.mem_insert, not_or]
      exact ⟨fun hfa => (List.nodup_cons.mp hnd).1 (hfa ▸ hf),
             hdisj f (List.mem_cons_of_mem a hf)⟩

/-- Claim C1: the adapter step of `apply` maps each entry of the
response's node list, in order, to exactly one `GraphNode` whose id is
that node identifier and whose group is the full requested-filters
list, and maps each entry of the edge list, in order, to exactly one
`GraphLink` with source and target taken directly from the pair, with
no deduplication and no validation of edge endpoints; in particular
nodes `["a","b"]`, edges `[("a","b")]` with requested filters
`[public]` yield exactly the display graph of the spec's example. -/
theorem C1_adapter_elementwise :
    (∀ (ropts : List String) (opts : List FilterId) (ns : List String)
        (es : List (String × String)),
      (adapt opts ⟨ropts, some ns, some es⟩).nodes.length = ns.length ∧
      (adapt opts ⟨ropts, some ns, some es⟩).links.length = es.length ∧
      (∀ i : Nat, (adapt opts ⟨ropts, some ns, some es⟩).nodes[i]? =
        (ns[i]?).map (fun id => ⟨id, opts⟩)) ∧
      (∀ i : Nat, (adapt opts ⟨ropts, some ns, some es⟩).links[i]? =
        (es[i]?).map (fun p => ⟨p.1, p.2⟩))) ∧
    adapt [.public] ⟨["public"], some ["a","b"], some [("a","b")]⟩ =
      ⟨[⟨"a",[.public]⟩, ⟨"b",[.public]⟩], [⟨"a","b"⟩]⟩ := by
  refine ⟨?_, rfl⟩
  intro ropts opts ns es
  refine ⟨by simp [adapt], by simp [adapt], ?_, ?_⟩ <;>
    intro i <;> simp [adapt]

/-- Claim C2: every failing `apply` cycle (HTTP failure with the body
text as message, or any thrown error message) ends with the error state
holding that message and the displayed graph reset to the empty graph,
never the previous graph. -/
theorem C2_failure_resets_graph :
    (∀ (st : AppState) (sel : List FilterId) (r : HttpResponse IntersectionResponse),
      r.ok = false →
        (applyWithResponse st sel r).error = some r.bodyText ∧
        (applyWithResponse st sel r).graph = emptyGraph) ∧
    (∀ (st : AppState) (sel : List FilterId) (msg : String),
      (applyFinish (applyStart st) sel (Except.error msg)).error = some msg ∧
      (applyFinish (applyStart st) sel (Except.error msg)).graph = emptyGraph) := by
  constructor
  · rintro st sel ⟨ok, text, json⟩ hok
    cases hok
    exact ⟨rfl, rfl⟩
  · intro st sel msg
    exact ⟨rfl, rfl⟩

/-- Claim C2 witness: from a state displaying a non-empty graph, a
failure response with body `"boom"` yields error `"boom"` and the
empty graph. -/
theorem C2_failure_resets_graph_witness :
    (applyWithResponse ⟨⟨[⟨"a", []⟩], []⟩, false, none⟩ []
      ⟨false, "boom", ⟨[], none, none⟩⟩).error = some "boom" ∧
    (applyWithResponse ⟨⟨[⟨"a", []⟩], []⟩, false, none⟩ []
      ⟨false, "boom", ⟨[], none, none⟩⟩).graph = emptyGraph :=
  C2_failure_resets_graph.1 ⟨⟨[⟨"a", []⟩], []⟩, false, none⟩ []
    ⟨false, "boom", ⟨[], none, none⟩⟩ rfl

/-- Claim C3: `nodeColor` is a total deterministic function of the tag
list: the empty list maps to the neutral color, a singleton `[f]` maps
to `FILTER_COLORS f`, any list of length at least two maps to the one
fixed multi-membership color, and the three per-filter colors are
pairwise distinct. -/
theorem C3_nodeColor_total :
    (∀ id, nodeColor ⟨id, []⟩ = "#94a3b8") ∧
    (∀ id f, nodeColor ⟨id, [f]⟩ = FILTER_COLORS f) ∧
    (∀ id (g : List FilterId), 2 ≤ g.length → nodeColor ⟨id, g⟩ = "#a855f7") ∧
    (∀ f g, FILTER_COLORS f = FILTER_COLORS g → f = g) := by
  refine ⟨fun id => rfl, fun id f => rfl, ?_, by decide⟩
  intro id g h
  match g with
  | [] => simp at h
  | [f] => simp at h
  | a :: b :: t => rfl

/-- Claim C3 witness: a two-tag node gets the multi color, and equal
colors at a concrete pair force equal filters. -/
theorem C3_nodeColor_total_witness :
    nodeColor ⟨"x", [FilterId.public, FilterId.sink]⟩ = "#a855f7" ∧
    FilterId.vuln = FilterId.vuln :=
  ⟨C3_nodeColor_total.2.2.1 "x" [FilterId.public, FilterId.sink] (by decide),
   C3_nodeColor_total.2.2.2 FilterId.vuln FilterId.vuln rfl⟩

/-- Claim C4: toggling each element of a duplicate-free list starting
from the empty selection yields exactly that list's set of elements, so
the outcome is the set `S` itself and is independent of the order in
which the elements of `S` are toggled. -/
theorem C4_toggle_builds_set :
    (∀ (l : List FilterId), l.Nodup →
      l.foldl (fun s f => toggle f s) ∅ = l.toFinset) ∧
    (∀ (l₁ l₂ : List FilterId), l₁.Nodup → l₂.Nodup → l₁.toFinset = l₂.toFinset →
      l₁.foldl (fun s f => toggle f s) ∅ = l₂.foldl (fun s f => toggle f s) ∅) := by
  have h : ∀ (l : List FilterId), l.Nodup →
      l.foldl (fun s f => toggle f s) ∅ = l.toFinset := by
    intro l hl
    simpa using toggle_foldl_disjoint l ∅ hl (by simp)
  exact ⟨h, fun l₁ l₂ h₁ h₂ he => by rw [h l₁ h₁, h l₂ h₂, he]⟩

/-- Claim C4 witness: toggling vuln then public from empty yields the
set of those two filters, and the reverse order yields the same
selection. -/
theorem C4_toggle_builds_set_witness :
    [FilterId.vuln, FilterId.public].foldl (fun s f => toggle f s) ∅ =
      [FilterId.vuln, FilterId.public].toFinset ∧
    [FilterId.vuln, FilterId.public].foldl (fun s f => toggle f s) ∅ =
      [FilterId.public, FilterId.vuln].foldl (fun s f => toggle f s) ∅ :=
  ⟨C4_toggle_builds_set.1 [FilterId.vuln, FilterId.public] (by decide),
   C4_toggle_builds_set.2 [FilterId.vuln, FilterId.public]
     [FilterId.public, FilterId.vuln] (by decide) (by decide) (by decide)⟩

/-- Claim C5: `toggle f` applied twice returns any selection to itself
(involution); a single toggle flips membership of `f` and leaves the
membership of every other filter unchanged, the only state it touches. -/
theorem C5_toggle_involution :
    ∀ (s : Finset FilterId) (f : FilterId),
      toggle f (toggle f s) = s ∧ (f ∈ toggle f s ↔ f ∉ s) ∧
      (∀ g, g ≠ f → ((g ∈ toggle f s) ↔ g ∈ s)) := by decide

/-- Claim C5 witness: double-toggling sink on the singleton selection
public restores it, and toggling sink leaves vuln's membership alone. -/
theorem C5_toggle_involution_witness :
    toggle FilterId.sink (toggle FilterId.sink {FilterId.public}) = {FilterId.public} ∧
    ((FilterId.vuln ∈ toggle FilterId.sink {FilterId.public}) ↔
      FilterId.vuln ∈ ({FilterId.public} : Finset FilterId)) :=
  ⟨(C5_toggle_involution {FilterId.public} FilterId.sink).1,
   (C5_toggle_involution {FilterId.public} FilterId.sink).2.2 FilterId.vuln (by decide)⟩

/-- Claim C6: with no options the request URL is the bare intersection
path with no query string; with a non-empty filter list the query
string is one `options=` parameter per selected filter identifier. -/
theorem C6_url_query :
    intersectionUrl [] = "/api/intersection" ∧
    ∀ (l : List FilterId), l ≠ [] →
      intersectionUrl (l.map filterIdStr) =
        "/api/intersection?" ++
          String.intercalate "&" (l.map (fun f => "options=" ++ filterIdStr f)) := by
  refine ⟨by decide, ?_⟩
  intro l hl
  have hlen : (l.map filterIdStr).length ≠ 0 := by
    simp [List.length_eq_zero, hl]
  have hmap : (l.map filterIdStr).map (fun o => "options=" ++ encodeURIComponent o) =
      l.map (fun f => "options=" ++ filterIdStr f) := by
    rw [List.map_map]
    apply List.map_congr_left
    intro f _
    simp [Function.comp, encode_filterIdStr]
  rw [intersectionUrl, if_pos hlen, hmap]
  rw [API_BASE]
  rw [← String.append_assoc]
  rfl

/-- Claim C6 witness: selecting only public produces the URL with the
single query parameter `options=public`. -/
theorem C6_url_query_witness :
    intersectionUrl ([FilterId.public].map filterIdStr) =
      "/api/intersection?" ++
        String.intercalate "&" ([FilterId.public].map (fun f => "options=" ++ filterIdStr f)) :=
  C6_url_query.2 [FilterId.public] (by decide)

/-- Claim C7: `fetchJson` raises an error exactly when the response is
not ok, the raised message is exactly the response body text, and on an
ok response it returns the parsed JSON body. -/
theorem C7_fetchJson_spec :
    ∀ (r : HttpResponse IntersectionResponse),
      (r.ok = true → fetchJson r = Except.ok r.bodyJson) ∧
      (r.ok = false → fetchJson r = Except.error r.bodyText) ∧
      ((∃ e, fetchJson r = Except.error e) ↔ r.ok = false) := by
  rintro ⟨ok, text, json⟩
  cases ok <;> simp [fetchJson]

/-- Claim C7 witness: a failed response with body `"boom"` raises
`"boom"`, and an ok response returns its parsed body. -/
theorem C7_fetchJson_spec_witness :
    fetchJson (⟨false, "boom", ⟨[], none, none⟩⟩ : HttpResponse IntersectionResponse) =
      Except.error "boom" ∧
    fetchJson (⟨true, "x", ⟨[], some [], some []⟩⟩ : HttpResponse IntersectionResponse) =
      Except.ok ⟨[], some [], some []⟩ :=
  ⟨(C7_fetchJson_spec ⟨false, "boom", ⟨[], none, none⟩⟩).2.1 rfl,
   (C7_fetchJson_spec ⟨true, "x", ⟨[], some [], some []⟩⟩).1 rfl⟩

/-- Claim C8: within one `apply` cycle the loading flag is true after
the start step and false after the finish step on every outcome, so the
cycle never ends in the loading state. -/
theorem C8_loading_lifecycle :
    ∀ (st : AppState) (sel : List FilterId) (resp : Except String IntersectionResponse),
      (applyStart st).loading = true ∧
      (applyFinish (applyStart st) sel resp).loading = false := by
  intro st sel resp
  refine ⟨rfl, ?_⟩
  cases resp <;> rfl

/-- Claim C9: against an API that is a deterministic function of the
request, an `apply` cycle yields the same displayed graph from any two
starting states; in particular running the cycle twice in a row shows
the identical graph both times. -/
theorem C9_apply_deterministic :
    (∀ (api : List String → HttpResponse IntersectionResponse)
        (sel : List FilterId) (st₁ st₂ : AppState),
      (runApply api sel st₁).graph = (runApply api sel st₂).graph) ∧
    (∀ (api : List String → HttpResponse IntersectionResponse)
        (sel : List FilterId) (st : AppState),
      (runApply api sel (runApply api sel st)).graph = (runApply api sel st).graph) := by
  have h : ∀ (api : List String → HttpResponse IntersectionResponse)
      (sel : List FilterId) (st₁ st₂ : AppState),
      (runApply api sel st₁).graph = (runApply api sel st₂).graph := by
    intro api sel st₁ st₂
    cases h : fetchJson (api (sel.map filterIdStr)) <;>
      simp [runApply, applyWithResponse, applyFinish, h]
  exact ⟨h, fun api sel st => h api sel _ st⟩

/-- Claim C10: a successful response whose nodes or edges field is
absent does not fail the cycle: the missing field acts as the empty
list, the other field is adapted as usual, and no error is recorded. -/
theorem C10_missing_fields_default_empty :
    ∀ (st : AppState) (sel : List FilterId) (ropts : List String)
      (body : String) (ns : List String) (es : List (String × String)),
      ((applyWithResponse st sel ⟨true, body, ⟨ropts, none, some es⟩⟩).error = none ∧
       (applyWithResponse st sel ⟨true, body, ⟨ropts, none, some es⟩⟩).graph.nodes = [] ∧
       (applyWithResponse st sel ⟨true, body, ⟨ropts, none, some es⟩⟩).graph.links =
         es.map (fun p => ⟨p.1, p.2⟩)) ∧
      ((applyWithResponse st sel ⟨true, body, ⟨ropts, some ns, none⟩⟩).error = none ∧
       (applyWithResponse st sel ⟨true, body, ⟨ropts, some ns, none⟩⟩).graph.links = [] ∧
       (applyWithResponse st sel ⟨true, body, ⟨ropts, some ns, none⟩⟩).graph.nodes =
         ns.map (fun id => ⟨id, sel⟩)) ∧
      ((applyWithResponse st sel ⟨true, body, ⟨ropts, none, none⟩⟩).error = none ∧
       (applyWithResponse st sel ⟨true, body, ⟨ropts, none, none⟩⟩).graph = emptyGraph) := by
  intro st sel ropts body ns es
  exact ⟨⟨rfl, rfl, rfl⟩, ⟨rfl, rfl, rfl⟩, rfl, rfl⟩

end GraphViewer
